import Mathlib

/-!
Verification of the versioned entity store of the HOH budget backend
(`budget/models.py`, `budget/views.py`).

The development shallowly embeds the three Django model `save()` overrides
(`Projects.save`, `ProjectCosts.save`, `ProjectOverheads.save`) together with
the version-history tables they append to, and the call paths that reach them
(CRUD create, the PDF-import create path that may carry an external
`version_number`, and load-modify-save updates).

Python `Decimal` values are embedded as an integer coefficient with a decimal
scale; Python compares decimals by value, not representation, which the
embedding mirrors with `Dec.valEq`.
-/

/-- A Python `Decimal`: `unscaled * 10 ^ (- scale)`.  The representation keeps
the scale so that value-equal but differently written decimals (`10` versus
`10.00`) are distinct terms, as they are distinct `Decimal` objects. -/
structure Dec where
  unscaled : Int
  scale : Nat
deriving DecidableEq

/-- Value equality of decimals, as Python's `Decimal.__eq__` compares. -/
def Dec.valEq (a b : Dec) : Bool :=
  a.unscaled * (10 : Int) ^ b.scale == b.unscaled * (10 : Int) ^ a.scale

/-- Value inequality of decimals, Python's `!=` on `Decimal`. -/
def Dec.ne (a b : Dec) : Bool := !(Dec.valEq a b)

/-- Python truthiness of a `Decimal`: falsy exactly when the value is zero. -/
def Dec.truthy (d : Dec) : Bool := d.unscaled != 0

/-- Exact decimal multiplication, as `Decimal * Decimal` computes it. -/
def Dec.mul (a b : Dec) : Dec := ⟨a.unscaled * b.unscaled, a.scale + b.scale⟩

/-- Python `!=` on a nullable decimal column (`None` versus `Decimal`). -/
def optDecNe : Option Dec → Option Dec → Bool
  | none, none => false
  | some a, some b => Dec.ne a b
  | _, _ => true

/-- Current-state row of the `projects` table (`budget/models.py`, class
`Projects`).  Dates are embedded as abstract integers compared by value. -/
structure Projects where
  name : String
  location : Option String
  start_date : Option Int
  end_date : Option Int
  total_project_cost : Dec
  version_number : Nat
deriving DecidableEq

/-- History row of the `project_versions` table (class `ProjectVersion`). -/
structure ProjectVersion where
  original_record : Nat
  name : String
  location : Option String
  start_date : Option Int
  end_date : Option Int
  total_project_cost : Dec
  version_number : Nat
  changed_by : Option String
  change_reason : String
deriving DecidableEq

/-- Current-state row of the `project_costs` table (class `ProjectCosts`). -/
structure ProjectCosts where
  project : Option Nat
  category_code : String
  category_name : String
  item_description : String
  supplier_brand : Option String
  unit : Option String
  quantity : Dec
  rate_per_unit : Dec
  line_total : Dec
  category_total : Option Dec
  version_number : Nat
deriving DecidableEq

/-- History row of the `project_cost_versions` table
(class `ProjectCostVersion`). -/
structure ProjectCostVersion where
  original_record : Nat
  project : Option Nat
  category_code : String
  category_name : String
  item_description : String
  supplier_brand : Option String
  unit : Option String
  quantity : Dec
  rate_per_unit : Dec
  line_total : Dec
  category_total : Option Dec
  version_number : Nat
  changed_by : Option String
  change_reason : String
deriving DecidableEq

/-- Current-state row of the `project_overheads` table
(class `ProjectOverheads`). -/
structure ProjectOverheads where
  project : Option Nat
  overhead_type : String
  description : Option String
  basis : Option String
  percentage : Dec
  amount : Dec
  version_number : Nat
deriving DecidableEq

/-- History row of the `project_overhead_versions` table
(class `ProjectOverheadVersion`). -/
structure ProjectOverheadVersion where
  original_record : Nat
  project : Option Nat
  overhead_type : String
  description : Option String
  basis : Option String
  percentage : Dec
  amount : Dec
  version_number : Nat
  changed_by : Option String
  change_reason : String
deriving DecidableEq

/-- Look a row up by primary key (first match). -/
def lookupRow {α : Type} : List (Nat × α) → Nat → Option α
  | [], _ => none
  | (j, e) :: rest, k => if j = k then some e else lookupRow rest k

/-- Write a row at a primary key: `UPDATE` if the key is present, `INSERT`
(append) otherwise — the behaviour of Django's `Model.save` on the backing
table. -/
def setRow {α : Type} : List (Nat × α) → Nat → α → List (Nat × α)
  | [], k, e => [(k, e)]
  | (j, e') :: rest, k, e =>
      if j = k then (k, e) :: rest else (j, e') :: setRow rest k e

/-- The relational state: one current-state table and one history table per
entity kind, plus the auto-increment counters. -/
structure DB where
  projects : List (Nat × Projects)
  projectVersions : List ProjectVersion
  projectCosts : List (Nat × ProjectCosts)
  projectCostVersions : List ProjectCostVersion
  projectOverheads : List (Nat × ProjectOverheads)
  projectOverheadVersions : List ProjectOverheadVersion
  nextProjectPk : Nat
  nextCostPk : Nat
  nextOverheadPk : Nat
deriving DecidableEq

/-- The empty database; auto-increment keys start at 1. -/
def DB.empty : DB := ⟨[], [], [], [], [], [], 1, 1, 1⟩

/-- `any(getattr(old,f) != getattr(self,f) for f in fields_to_track)` with
`fields_to_track = [name, location, start_date, end_date,
total_project_cost]` (`Projects.save`). -/
def Projects.trackedChanged (old self : Projects) : Bool :=
  (old.name != self.name) || (old.location != self.location) ||
  (old.start_date != self.start_date) || (old.end_date != self.end_date) ||
  Dec.ne old.total_project_cost self.total_project_cost

/-- The `ProjectVersion.objects.create(...)` call of `Projects.save`: every
field copied from the old instance, `version_number` the old (outgoing)
version, `change_reason` defaulting to `"Updated"`. -/
def Projects.mkVersion (pk : Nat) (old : Projects)
    (changed_by change_reason : Option String) : ProjectVersion :=
  { original_record := pk, name := old.name, location := old.location,
    start_date := old.start_date, end_date := old.end_date,
    total_project_cost := old.total_project_cost,
    version_number := old.version_number,
    changed_by := changed_by,
    change_reason := change_reason.getD "Updated" }

/-- `Projects.save` (`budget/models.py` lines 30-58).  `pk = none` is a fresh
insert; with a pk, the stored row is fetched, tracked fields are diffed, and
on a difference a history row is prepended and the version incremented; a
missing row (`DoesNotExist`) is passed over and the instance written as is. -/
def Projects.save (db : DB) (pk : Option Nat) (self : Projects)
    (changed_by change_reason : Option String) : DB × Projects :=
  match pk with
  | none =>
      ({ db with projects := setRow db.projects db.nextProjectPk self,
                 nextProjectPk := db.nextProjectPk + 1 }, self)
  | some k =>
      match lookupRow db.projects k with
      | none => ({ db with projects := setRow db.projects k self }, self)
      | some old =>
          if Projects.trackedChanged old self then
            let self' := { self with version_number := old.version_number + 1 }
            ({ db with
                projects := setRow db.projects k self',
                projectVersions :=
                  Projects.mkVersion k old changed_by change_reason ::
                    db.projectVersions }, self')
          else
            ({ db with projects := setRow db.projects k self }, self)

/-- The `line_total` recomputation at the top of `ProjectCosts.save`:
`if self.quantity and self.rate_per_unit: self.line_total = quantity * rate`.
The guard is Python truthiness, so a zero quantity or rate skips it. -/
def ProjectCosts.deriveLineTotal (self : ProjectCosts) : ProjectCosts :=
  if Dec.truthy self.quantity && Dec.truthy self.rate_per_unit then
    { self with line_total := Dec.mul self.quantity self.rate_per_unit }
  else self

/-- `fields_to_track = [quantity, rate_per_unit, supplier_brand,
category_total]` (`ProjectCosts.save`). -/
def ProjectCosts.trackedChanged (old self : ProjectCosts) : Bool :=
  Dec.ne old.quantity self.quantity ||
  Dec.ne old.rate_per_unit self.rate_per_unit ||
  (old.supplier_brand != self.supplier_brand) ||
  optDecNe old.category_total self.category_total

/-- The `ProjectCostVersion.objects.create(...)` call of
`ProjectCosts.save`. -/
def ProjectCosts.mkVersion (pk : Nat) (old : ProjectCosts)
    (changed_by change_reason : Option String) : ProjectCostVersion :=
  { original_record := pk, project := old.project,
    category_code := old.category_code, category_name := old.category_name,
    item_description := old.item_description,
    supplier_brand := old.supplier_brand, unit := old.unit,
    quantity := old.quantity, rate_per_unit := old.rate_per_unit,
    line_total := old.line_total, category_total := old.category_total,
    version_number := old.version_number,
    changed_by := changed_by,
    change_reason := change_reason.getD "Updated" }

/-- `ProjectCosts.save` (`budget/models.py` lines 96-133): recompute
`line_total`, then the same versioning scheme as `Projects.save`. -/
def ProjectCosts.save (db : DB) (pk : Option Nat) (self0 : ProjectCosts)
    (changed_by change_reason : Option String) : DB × ProjectCosts :=
  let self := ProjectCosts.deriveLineTotal self0
  match pk with
  | none =>
      ({ db with projectCosts := setRow db.projectCosts db.nextCostPk self,
                 nextCostPk := db.nextCostPk + 1 }, self)
  | some k =>
      match lookupRow db.projectCosts k with
      | none => ({ db with projectCosts := setRow db.projectCosts k self }, self)
      | some old =>
          if ProjectCosts.trackedChanged old self then
            let self' := { self with version_number := old.version_number + 1 }
            ({ db with
                projectCosts := setRow db.projectCosts k self',
                projectCostVersions :=
                  ProjectCosts.mkVersion k old changed_by change_reason ::
                    db.projectCostVersions }, self')
          else
            ({ db with projectCosts := setRow db.projectCosts k self }, self)

/-- `fields_to_track = [percentage, amount, overhead_type, description]`
(`ProjectOverheads.save`); note `basis` is not tracked. -/
def ProjectOverheads.trackedChanged (old self : ProjectOverheads) : Bool :=
  Dec.ne old.percentage self.percentage ||
  Dec.ne old.amount self.amount ||
  (old.overhead_type != self.overhead_type) ||
  (old.description != self.description)

/-- The `ProjectOverheadVersion.objects.create(...)` call of
`ProjectOverheads.save`. -/
def ProjectOverheads.mkVersion (pk : Nat) (old : ProjectOverheads)
    (changed_by change_reason : Option String) : ProjectOverheadVersion :=
  { original_record := pk, project := old.project,
    overhead_type := old.overhead_type, description := old.description,
    basis := old.basis, percentage := old.percentage, amount := old.amount,
    version_number := old.version_number,
    changed_by := changed_by,
    change_reason := change_reason.getD "Updated" }

/-- `ProjectOverheads.save` (`budget/models.py` lines 160-189). -/
def ProjectOverheads.save (db : DB) (pk : Option Nat) (self : ProjectOverheads)
    (changed_by change_reason : Option String) : DB × ProjectOverheads :=
  match pk with
  | none =>
      ({ db with
          projectOverheads := setRow db.projectOverheads db.nextOverheadPk self,
          nextOverheadPk := db.nextOverheadPk + 1 }, self)
  | some k =>
      match lookupRow db.projectOverheads k with
      | none =>
          ({ db with projectOverheads := setRow db.projectOverheads k self }, self)
      | some old =>
          if ProjectOverheads.trackedChanged old self then
            let self' := { self with version_number := old.version_number + 1 }
            ({ db with
                projectOverheads := setRow db.projectOverheads k self',
                projectOverheadVersions :=
                  ProjectOverheads.mkVersion k old changed_by change_reason ::
                    db.projectOverheadVersions }, self')
          else
            ({ db with projectOverheads := setRow db.projectOverheads k self }, self)

/-- The default create path (CRUD serializers, `objects.create` without an
explicit version): the model field default `version_number = 1` applies. -/
def createProjectOp (db : DB) (d : Projects)
    (changed_by change_reason : Option String) : DB :=
  (Projects.save db none { d with version_number := 1 } changed_by change_reason).1

/-- The PDF-import create path (`PDFExtractionView.post`,
`budget/views.py` lines 170-180): when the external upload-doc service
returned a `version_id`, it is passed as the new row's `version_number`. -/
def createProjectExtOp (db : DB) (d : Projects) (v : Nat)
    (changed_by change_reason : Option String) : DB :=
  (Projects.save db none { d with version_number := v } changed_by change_reason).1

/-- The update call path: load the row by pk, apply the submitted field
values (the serializers keep `version_number` read-only, so the loaded
version is kept), then `save()`.  A missing pk is a 404 and changes
nothing. -/
def updateProjectOp (db : DB) (k : Nat) (d : Projects)
    (changed_by change_reason : Option String) : DB :=
  match lookupRow db.projects k with
  | none => db
  | some old =>
      (Projects.save db (some k) { d with version_number := old.version_number }
        changed_by change_reason).1

/-- Default create path for `ProjectCosts` (`version_number = 1`). -/
def createCostOp (db : DB) (d : ProjectCosts)
    (changed_by change_reason : Option String) : DB :=
  (ProjectCosts.save db none { d with version_number := 1 } changed_by change_reason).1

/-- PDF-import create path for `ProjectCosts` (`budget/views.py` lines
190-204): the external `version_id` is written into `version_number`. -/
def createCostExtOp (db : DB) (d : ProjectCosts) (v : Nat)
    (changed_by change_reason : Option String) : DB :=
  (ProjectCosts.save db none { d with version_number := v } changed_by change_reason).1

/-- Update call path for `ProjectCosts`. -/
def updateCostOp (db : DB) (k : Nat) (d : ProjectCosts)
    (changed_by change_reason : Option String) : DB :=
  match lookupRow db.projectCosts k with
  | none => db
  | some old =>
      (ProjectCosts.save db (some k) { d with version_number := old.version_number }
        changed_by change_reason).1

/-- Default create path for `ProjectOverheads` (`version_number = 1`). -/
def createOverheadOp (db : DB) (d : ProjectOverheads)
    (changed_by change_reason : Option String) : DB :=
  (ProjectOverheads.save db none { d with version_number := 1 } changed_by change_reason).1

/-- PDF-import create path for `ProjectOverheads` (`budget/views.py` lines
211-225). -/
def createOverheadExtOp (db : DB) (d : ProjectOverheads) (v : Nat)
    (changed_by change_reason : Option String) : DB :=
  (ProjectOverheads.save db none { d with version_number := v } changed_by change_reason).1

/-- Update call path for `ProjectOverheads`. -/
def updateOverheadOp (db : DB) (k : Nat) (d : ProjectOverheads)
    (changed_by change_reason : Option String) : DB :=
  match lookupRow db.projectOverheads k with
  | none => db
  | some old =>
      (ProjectOverheads.save db (some k) { d with version_number := old.version_number }
        changed_by change_reason).1

/-- One store transition.  The index records whether the external-version
create path (the PDF import with an upstream `version_id`) is admitted:
`Step true` is the full system, `Step false` restricts every create to the
default `version_number = 1`. -/
inductive Step : Bool → DB → DB → Prop where
  | createProject (ext : Bool) (db : DB) (d : Projects) (cb cr : Option String) :
      Step ext db (createProjectOp db d cb cr)
  | createProjectExt (db : DB) (d : Projects) (v : Nat) (cb cr : Option String) :
      Step true db (createProjectExtOp db d v cb cr)
  | updateProject (ext : Bool) (db : DB) (k : Nat) (d : Projects) (cb cr : Option String) :
      Step ext db (updateProjectOp db k d cb cr)
  | createCost (ext : Bool) (db : DB) (d : ProjectCosts) (cb cr : Option String) :
      Step ext db (createCostOp db d cb cr)
  | createCostExt (db : DB) (d : ProjectCosts) (v : Nat) (cb cr : Option String) :
      Step true db (createCostExtOp db d v cb cr)
  | updateCost (ext : Bool) (db : DB) (k : Nat) (d : ProjectCosts) (cb cr : Option String) :
      Step ext db (updateCostOp db k d cb cr)
  | createOverhead (ext : Bool) (db : DB) (d : ProjectOverheads) (cb cr : Option String) :
      Step ext db (createOverheadOp db d cb cr)
  | createOverheadExt (db : DB) (d : ProjectOverheads) (v : Nat) (cb cr : Option String) :
      Step true db (createOverheadExtOp db d v cb cr)
  | updateOverhead (ext : Bool) (db : DB) (k : Nat) (d : ProjectOverheads) (cb cr : Option String) :
      Step ext db (updateOverheadOp db k d cb cr)

/-- States reachable from the empty store through the modelled call paths. -/
inductive Reachable : Bool → DB → Prop where
  | init (ext : Bool) : Reachable ext DB.empty
  | step {ext : Bool} {db db' : DB} :
      Reachable ext db → Step ext db db' → Reachable ext db'

/-- The `version_number` column of the history rows whose `original_record`
is the given entity, newest first. -/
def histVersOf {H : Type} (horig hver : H → Nat) (hist : List H) (k : Nat) :
    List Nat :=
  (hist.filter (fun h => horig h == k)).map hver

/-- History versions of a project, newest first. -/
def projHistVers (db : DB) (k : Nat) : List Nat :=
  histVersOf ProjectVersion.original_record ProjectVersion.version_number
    db.projectVersions k

/-- History versions of a project cost, newest first. -/
def costHistVers (db : DB) (k : Nat) : List Nat :=
  histVersOf ProjectCostVersion.original_record ProjectCostVersion.version_number
    db.projectCostVersions k

/-- History versions of a project overhead, newest first. -/
def overheadHistVers (db : DB) (k : Nat) : List Nat :=
  histVersOf ProjectOverheadVersion.original_record
    ProjectOverheadVersion.version_number db.projectOverheadVersions k

/-- `countdown n = [n, n-1, ..., 1]`. -/
def countdown : Nat → List Nat
  | 0 => []
  | n + 1 => (n + 1) :: countdown n

theorem countdown_length (n : Nat) : (countdown n).length = n := by
  induction n with
  | zero => rfl
  | succ m ih => simp [countdown, ih]

theorem countdown_mem (n i : Nat) : i ∈ countdown n ↔ 1 ≤ i ∧ i ≤ n := by
  induction n with
  | zero =>
      simp only [countdown, List.not_mem_nil, false_iff]
      omega
  | succ m ih =>
      simp only [countdown, List.mem_cons, ih]
      omega

theorem countdown_nodup (n : Nat) : (countdown n).Nodup := by
  induction n with
  | zero => exact List.nodup_nil
  | succ m ih =>
      refine List.nodup_cons.2 ⟨?_, ih⟩
      rw [countdown_mem]
      omega

theorem countdown_of_pos {v : Nat} (h : 1 ≤ v) :
    countdown v = v :: countdown (v - 1) := by
  cases v with
  | zero => omega
  | succ m => rfl

theorem lookupRow_setRow_self {α : Type} (rows : List (Nat × α)) (k : Nat) (e : α) :
    lookupRow (setRow rows k e) k = some e := by
  induction rows with
  | nil => simp [setRow, lookupRow]
  | cons p rest ih =>
      obtain ⟨j, e'⟩ := p
      by_cases h : j = k
      · simp [setRow, h, lookupRow]
      · simp [setRow, h, lookupRow, ih]

theorem lookupRow_setRow_ne {α : Type} (rows : List (Nat × α)) (j k : Nat) (e : α)
    (h : j ≠ k) : lookupRow (setRow rows k e) j = lookupRow rows j := by
  induction rows with
  | nil =>
      have hkj : k ≠ j := fun hh => h hh.symm
      simp [setRow, lookupRow, hkj]
  | cons p rest ih =>
      obtain ⟨i, a⟩ := p
      by_cases hik : i = k
      · subst hik
        have hij : i ≠ j := fun hh => h hh.symm
        simp [setRow, lookupRow, hij]
      · by_cases hij : i = j
        · subst hij
          simp [setRow, lookupRow, hik]
        · simp [setRow, lookupRow, hik, hij, ih]

theorem histVersOf_cons_self {H : Type} (horig hver : H → Nat) (h : H)
    (hist : List H) (k : Nat) (hk : horig h = k) :
    histVersOf horig hver (h :: hist) k = hver h :: histVersOf horig hver hist k := by
  simp [histVersOf, List.filter_cons, hk]

theorem histVersOf_cons_ne {H : Type} (horig hver : H → Nat) (h : H)
    (hist : List H) (k : Nat) (hk : horig h ≠ k) :
    histVersOf horig hver (h :: hist) k = histVersOf horig hver hist k := by
  simp [histVersOf, List.filter_cons, hk]

theorem histVersOf_eq_nil {H : Type} (horig hver : H → Nat) (hist : List H)
    (n : Nat) (hb : ∀ h ∈ hist, horig h < n) :
    histVersOf horig hver hist n = [] := by
  induction hist with
  | nil => rfl
  | cons h rest ih =>
      have hne : horig h ≠ n := Nat.ne_of_lt (hb h (List.mem_cons_self h rest))
      rw [histVersOf_cons_ne _ _ _ _ _ hne]
      exact ih fun g hg => hb g (List.mem_cons_of_mem h hg)

/-- Per-table invariant: every storable row has a key below the
auto-increment counter, a version of at least 1, and a history whose version
column is exactly `[v-1, ..., 1]`; every history row points below the
counter. -/
def TableInv {E H : Type} (ver : E → Nat) (horig hver : H → Nat)
    (rows : List (Nat × E)) (hist : List H) (nextPk : Nat) : Prop :=
  (∀ k e, lookupRow rows k = some e →
      k < nextPk ∧ 1 ≤ ver e ∧
      histVersOf horig hver hist k = countdown (ver e - 1)) ∧
  (∀ h ∈ hist, horig h < nextPk)

theorem TableInv.create {E H : Type} {ver : E → Nat} {horig hver : H → Nat}
    {rows : List (Nat × E)} {hist : List H} {nextPk : Nat}
    (inv : TableInv ver horig hver rows hist nextPk)
    {e : E} (hv : ver e = 1) :
    TableInv ver horig hver (setRow rows nextPk e) hist (nextPk + 1) := by
  constructor
  · intro k x hx
    by_cases hk : k = nextPk
    · subst hk
      rw [lookupRow_setRow_self] at hx
      obtain rfl : e = x := Option.some.inj hx
      refine ⟨Nat.lt_succ_self _, by omega, ?_⟩
      rw [hv]
      exact histVersOf_eq_nil _ _ _ _ inv.2
    · rw [lookupRow_setRow_ne _ _ _ _ hk] at hx
      obtain ⟨h1, h2, h3⟩ := inv.1 k x hx
      exact ⟨Nat.lt_succ_of_lt h1, h2, h3⟩
  · exact fun h hh => Nat.lt_succ_of_lt (inv.2 h hh)

theorem TableInv.update_keep {E H : Type} {ver : E → Nat} {horig hver : H → Nat}
    {rows : List (Nat × E)} {hist : List H} {nextPk : Nat}
    (inv : TableInv ver horig hver rows hist nextPk)
    {k : Nat} {old e : E}
    (hold : lookupRow rows k = some old) (hv : ver e = ver old) :
    TableInv ver horig hver (setRow rows k e) hist nextPk := by
  obtain ⟨hk, hvo, hchain⟩ := inv.1 k old hold
  constructor
  · intro j x hx
    by_cases hj : j = k
    · subst hj
      rw [lookupRow_setRow_self] at hx
      obtain rfl : e = x := Option.some.inj hx
      exact ⟨hk, hv ▸ hvo, hv ▸ hchain⟩
    · rw [lookupRow_setRow_ne _ _ _ _ hj] at hx
      exact inv.1 j x hx
  · exact inv.2

theorem TableInv.update_bump {E H : Type} {ver : E → Nat} {horig hver : H → Nat}
    {rows : List (Nat × E)} {hist : List H} {nextPk : Nat}
    (inv : TableInv ver horig hver rows hist nextPk)
    {k : Nat} {old e : E} {h : H}
    (hold : lookupRow rows k = some old)
    (hv : ver e = ver old + 1) (ho : horig h = k) (hh : hver h = ver old) :
    TableInv ver horig hver (setRow rows k e) (h :: hist) nextPk := by
  obtain ⟨hk, hvo, hchain⟩ := inv.1 k old hold
  constructor
  · intro j x hx
    by_cases hj : j = k
    · subst hj
      rw [lookupRow_setRow_self] at hx
      obtain rfl : e = x := Option.some.inj hx
      refine ⟨hk, by omega, ?_⟩
      rw [histVersOf_cons_self _ _ _ _ _ ho, hh, hchain, hv,
        Nat.add_sub_cancel, countdown_of_pos hvo]
    · rw [lookupRow_setRow_ne _ _ _ _ hj] at hx
      obtain ⟨h1, h2, h3⟩ := inv.1 j x hx
      refine ⟨h1, h2, ?_⟩
      rw [histVersOf_cons_ne _ _ _ _ _ (fun hc => hj (hc.symm.trans ho))]
      exact h3
  · intro g hg
    rcases List.mem_cons.1 hg with rfl | hg'
    · exact ho ▸ hk
    · exact inv.2 g hg'

/-- Invariant of the whole store: each of the three tables satisfies the
per-table invariant. -/
def DBInv (db : DB) : Prop :=
  TableInv Projects.version_number ProjectVersion.original_record
    ProjectVersion.version_number db.projects db.projectVersions db.nextProjectPk ∧
  TableInv ProjectCosts.version_number ProjectCostVersion.original_record
    ProjectCostVersion.version_number db.projectCosts db.projectCostVersions
    db.nextCostPk ∧
  TableInv ProjectOverheads.version_number ProjectOverheadVersion.original_record
    ProjectOverheadVersion.version_number db.projectOverheads
    db.projectOverheadVersions db.nextOverheadPk

theorem dbInv_empty : DBInv DB.empty := by
  refine ⟨⟨?_, ?_⟩, ⟨?_, ?_⟩, ⟨?_, ?_⟩⟩ <;>
    first
      | (intro k e hx; exact absurd hx (by simp [DB.empty, lookupRow]))
      | (intro h hh; exact absurd hh (by simp [DB.empty]))

theorem projects_save_insert (db : DB) (self : Projects) (cb cr : Option String) :
    Projects.save db none self cb cr =
      ({ db with projects := setRow db.projects db.nextProjectPk self,
                 nextProjectPk := db.nextProjectPk + 1 }, self) := rfl

theorem projects_save_missing (db : DB) (k : Nat) (self : Projects)
    (cb cr : Option String) (h : lookupRow db.projects k = none) :
    Projects.save db (some k) self cb cr =
      ({ db with projects := setRow db.projects k self }, self) := by
  simp only [Projects.save]
  rw [h]

theorem projects_save_found (db : DB) (k : Nat) (self old : Projects)
    (cb cr : Option String) (h : lookupRow db.projects k = some old) :
    Projects.save db (some k) self cb cr =
      if Projects.trackedChanged old self then
        ({ db with
            projects := setRow db.projects k
              { self with version_number := old.version_number + 1 },
            projectVersions :=
              Projects.mkVersion k old cb cr :: db.projectVersions },
         { self with version_number := old.version_number + 1 })
      else ({ db with projects := setRow db.projects k self }, self) := by
  simp only [Projects.save]
  rw [h]

theorem costs_save_insert (db : DB) (self0 : ProjectCosts)
    (cb cr : Option String) :
    ProjectCosts.save db none self0 cb cr =
      ({ db with
          projectCosts := setRow db.projectCosts db.nextCostPk
            (ProjectCosts.deriveLineTotal self0),
          nextCostPk := db.nextCostPk + 1 },
       ProjectCosts.deriveLineTotal self0) := rfl

theorem costs_save_missing (db : DB) (k : Nat) (self0 : ProjectCosts)
    (cb cr : Option String) (h : lookupRow db.projectCosts k = none) :
    ProjectCosts.save db (some k) self0 cb cr =
      ({ db with
          projectCosts := setRow db.projectCosts k
            (ProjectCosts.deriveLineTotal self0) },
       ProjectCosts.deriveLineTotal self0) := by
  simp only [ProjectCosts.save]
  rw [h]

theorem costs_save_found (db : DB) (k : Nat) (self0 old : ProjectCosts)
    (cb cr : Option String) (h : lookupRow db.projectCosts k = some old) :
    ProjectCosts.save db (some k) self0 cb cr =
      (if ProjectCosts.trackedChanged old (ProjectCosts.deriveLineTotal self0) then
        ({ db with
            projectCosts := setRow db.projectCosts k
              { ProjectCosts.deriveLineTotal self0 with
                  version_number := old.version_number + 1 },
            projectCostVersions :=
              ProjectCosts.mkVersion k old cb cr :: db.projectCostVersions },
         { ProjectCosts.deriveLineTotal self0 with
             version_number := old.version_number + 1 })
      else
        ({ db with
            projectCosts := setRow db.projectCosts k
              (ProjectCosts.deriveLineTotal self0) },
         ProjectCosts.deriveLineTotal self0)) := by
  simp only [ProjectCosts.save]
  rw [h]

theorem overheads_save_insert (db : DB) (self : ProjectOverheads)
    (cb cr : Option String) :
    ProjectOverheads.save db none self cb cr =
      ({ db with
          projectOverheads := setRow db.projectOverheads db.nextOverheadPk self,
          nextOverheadPk := db.nextOverheadPk + 1 }, self) := rfl

theorem overheads_save_missing (db : DB) (k : Nat) (self : ProjectOverheads)
    (cb cr : Option String) (h : lookupRow db.projectOverheads k = none) :
    ProjectOverheads.save db (some k) self cb cr =
      ({ db with projectOverheads := setRow db.projectOverheads k self }, self) := by
  simp only [ProjectOverheads.save]
  rw [h]

theorem overheads_save_found (db : DB) (k : Nat) (self old : ProjectOverheads)
    (cb cr : Option String) (h : lookupRow db.projectOverheads k = some old) :
    ProjectOverheads.save db (some k) self cb cr =
      if ProjectOverheads.trackedChanged old self then
        ({ db with
            projectOverheads := setRow db.projectOverheads k
              { self with version_number := old.version_number + 1 },
            projectOverheadVersions :=
              ProjectOverheads.mkVersion k old cb cr :: db.projectOverheadVersions },
         { self with version_number := old.version_number + 1 })
      else ({ db with projectOverheads := setRow db.projectOverheads k self }, self) := by
  simp only [ProjectOverheads.save]
  rw [h]

theorem ProjectCosts.deriveLineTotal_version (s : ProjectCosts) :
    (ProjectCosts.deriveLineTotal s).version_number = s.version_number := by
  unfold ProjectCosts.deriveLineTotal
  split <;> rfl

theorem step_inv {db db' : DB} (st : Step false db db') (inv : DBInv db) :
    DBInv db' := by
  obtain ⟨invP, invC, invO⟩ := inv
  cases st with
  | createProject ext dbv d cb cr =>
      exact ⟨invP.create rfl, invC, invO⟩
  | updateProject ext dbv k d cb cr =>
      unfold updateProjectOp
      cases hlook : lookupRow db.projects k with
      | none => exact ⟨invP, invC, invO⟩
      | some old =>
          show DBInv
            (Projects.save db (some k)
              { d with version_number := old.version_number } cb cr).1
          rw [projects_save_found db k _ old cb cr hlook]
          by_cases hch :
              Projects.trackedChanged old { d with version_number := old.version_number } = true
          · rw [if_pos hch]
            exact ⟨invP.update_bump hlook rfl rfl rfl, invC, invO⟩
          · rw [if_neg hch]
            exact ⟨invP.update_keep hlook rfl, invC, invO⟩
  | createCost ext dbv d cb cr =>
      exact ⟨invP, invC.create (ProjectCosts.deriveLineTotal_version _), invO⟩
  | updateCost ext dbv k d cb cr =>
      unfold updateCostOp
      cases hlook : lookupRow db.projectCosts k with
      | none => exact ⟨invP, invC, invO⟩
      | some old =>
          show DBInv
            (ProjectCosts.save db (some k)
              { d with version_number := old.version_number } cb cr).1
          rw [costs_save_found db k _ old cb cr hlook]
          by_cases hch :
              ProjectCosts.trackedChanged old
                (ProjectCosts.deriveLineTotal
                  { d with version_number := old.version_number }) = true
          · rw [if_pos hch]
            exact ⟨invP, invC.update_bump hlook rfl rfl rfl, invO⟩
          · rw [if_neg hch]
            exact ⟨invP,
              invC.update_keep hlook (ProjectCosts.deriveLineTotal_version _), invO⟩
  | createOverhead ext dbv d cb cr =>
      exact ⟨invP, invC, invO.create rfl⟩
  | updateOverhead ext dbv k d cb cr =>
      unfold updateOverheadOp
      cases hlook : lookupRow db.projectOverheads k with
      | none => exact ⟨invP, invC, invO⟩
      | some old =>
          show DBInv
            (ProjectOverheads.save db (some k)
              { d with version_number := old.version_number } cb cr).1
          rw [overheads_save_found db k _ old cb cr hlook]
          by_cases hch :
              ProjectOverheads.trackedChanged old
                { d with version_number := old.version_number } = true
          · rw [if_pos hch]
            exact ⟨invP, invC, invO.update_bump hlook rfl rfl rfl⟩
          · rw [if_neg hch]
            exact ⟨invP, invC, invO.update_keep hlook rfl⟩

theorem reachable_inv {db : DB} (h : Reachable false db) : DBInv db := by
  induction h with
  | init => exact dbInv_empty
  | step hr hs ih => exact step_inv hs ih

theorem ProjectCosts.trackedChanged_derive (old s : ProjectCosts) :
    ProjectCosts.trackedChanged old (ProjectCosts.deriveLineTotal s) =
      ProjectCosts.trackedChanged old s := by
  unfold ProjectCosts.deriveLineTotal
  split <;> rfl

theorem ProjectCosts.deriveLineTotal_untracked (s : ProjectCosts) :
    (ProjectCosts.deriveLineTotal s).category_code = s.category_code ∧
    (ProjectCosts.deriveLineTotal s).category_name = s.category_name ∧
    (ProjectCosts.deriveLineTotal s).item_description = s.item_description ∧
    (ProjectCosts.deriveLineTotal s).unit = s.unit := by
  unfold ProjectCosts.deriveLineTotal
  split <;> exact ⟨rfl, rfl, rfl, rfl⟩

theorem ProjectCosts.deriveLineTotal_of_truthy (s : ProjectCosts)
    (hq : s.quantity.unscaled ≠ 0) (hr : s.rate_per_unit.unscaled ≠ 0) :
    ProjectCosts.deriveLineTotal s =
      { s with line_total := Dec.mul s.quantity s.rate_per_unit } := by
  unfold ProjectCosts.deriveLineTotal
  rw [if_pos]
  simp [Dec.truthy, bne_iff_ne, hq, hr]

/-- Sample project row used in concrete witnesses. -/
def sampleProject : Projects :=
  { name := "Corporate Building", location := some "NY", start_date := some 100,
    end_date := some 200, total_project_cost := ⟨500000, 2⟩, version_number := 1 }

/-- Sample cost row used in concrete witnesses. -/
def sampleCost : ProjectCosts :=
  { project := some 1, category_code := "A", category_name := "Civil",
    item_description := "Excavation", supplier_brand := some "BuildSmart",
    unit := some "m3", quantity := ⟨10, 0⟩, rate_per_unit := ⟨5, 0⟩,
    line_total := ⟨50, 0⟩, category_total := some ⟨50, 0⟩, version_number := 1 }

/-- Sample overhead row used in concrete witnesses. -/
def sampleOverhead : ProjectOverheads :=
  { project := some 1, overhead_type := "Contingency", description := some "BOQ",
    basis := some "Percentage of BOQ", percentage := ⟨695, 2⟩,
    amount := ⟨5000, 0⟩, version_number := 1 }

/-- A store holding one project (pk 1, version 1). -/
def dbP : DB := createProjectOp DB.empty sampleProject none none

/-- A store holding one project and one cost row (each at pk 1, version 1). -/
def dbC : DB := createCostOp dbP sampleCost none none

/-- A store holding one project, one cost and one overhead row. -/
def dbO : DB := createOverheadOp dbC sampleOverhead none none

/-- Claim C1: an update (save with an existing pk) in which a tracked field
differs writes exactly one history record snapshotting every field of the
stored pre-change row, tagged with the outgoing version number, and stores
the entity with that version number plus one — for all three entity
kinds. -/
theorem C1_update_snapshots_and_bumps :
    (∀ (db : DB) (k : Nat) (old self : Projects) (cb cr : Option String),
        lookupRow db.projects k = some old →
        Projects.trackedChanged old self = true →
        (Projects.save db (some k) self cb cr).1.projectVersions =
          { original_record := k, name := old.name, location := old.location,
            start_date := old.start_date, end_date := old.end_date,
            total_project_cost := old.total_project_cost,
            version_number := old.version_number, changed_by := cb,
            change_reason := cr.getD "Updated" } :: db.projectVersions ∧
        (Projects.save db (some k) self cb cr).2.version_number =
          old.version_number + 1 ∧
        lookupRow (Projects.save db (some k) self cb cr).1.projects k =
          some (Projects.save db (some k) self cb cr).2) ∧
    (∀ (db : DB) (k : Nat) (old self : ProjectCosts) (cb cr : Option String),
        lookupRow db.projectCosts k = some old →
        ProjectCosts.trackedChanged old self = true →
        (ProjectCosts.save db (some k) self cb cr).1.projectCostVersions =
          { original_record := k, project := old.project,
            category_code := old.category_code,
            category_name := old.category_name,
            item_description := old.item_description,
            supplier_brand := old.supplier_brand, unit := old.unit,
            quantity := old.quantity, rate_per_unit := old.rate_per_unit,
            line_total := old.line_total, category_total := old.category_total,
            version_number := old.version_number, changed_by := cb,
            change_reason := cr.getD "Updated" } :: db.projectCostVersions ∧
        (ProjectCosts.save db (some k) self cb cr).2.version_number =
          old.version_number + 1 ∧
        lookupRow (ProjectCosts.save db (some k) self cb cr).1.projectCosts k =
          some (ProjectCosts.save db (some k) self cb cr).2) ∧
    (∀ (db : DB) (k : Nat) (old self : ProjectOverheads) (cb cr : Option String),
        lookupRow db.projectOverheads k = some old →
        ProjectOverheads.trackedChanged old self = true →
        (ProjectOverheads.save db (some k) self cb cr).1.projectOverheadVersions =
          { original_record := k, project := old.project,
            overhead_type := old.overhead_type, description := old.description,
            basis := old.basis, percentage := old.percentage,
            amount := old.amount, version_number := old.version_number,
            changed_by := cb, change_reason := cr.getD "Updated" }
            :: db.projectOverheadVersions ∧
        (ProjectOverheads.save db (some k) self cb cr).2.version_number =
          old.version_number + 1 ∧
        lookupRow (ProjectOverheads.save db (some k) self cb cr).1.projectOverheads k =
          some (ProjectOverheads.save db (some k) self cb cr).2) := by
  refine ⟨?_, ?_, ?_⟩
  · intro db k old self cb cr hlook htc
    rw [projects_save_found db k self old cb cr hlook, if_pos htc]
    exact ⟨rfl, rfl, lookupRow_setRow_self _ _ _⟩
  · intro db k old self cb cr hlook htc
    rw [costs_save_found db k self old cb cr hlook,
      ProjectCosts.trackedChanged_derive, if_pos htc]
    exact ⟨rfl, rfl, lookupRow_setRow_self _ _ _⟩
  · intro db k old self cb cr hlook htc
    rw [overheads_save_found db k self old cb cr hlook, if_pos htc]
    exact ⟨rfl, rfl, lookupRow_setRow_self _ _ _⟩

/-- Project update changing a tracked field (location). -/
def movedProject : Projects := { sampleProject with location := some "LA" }

/-- Cost update changing a tracked field (quantity). -/
def bumpedCost : ProjectCosts := { sampleCost with quantity := ⟨20, 0⟩ }

/-- Overhead update changing a tracked field (amount). -/
def bumpedOverhead : ProjectOverheads := { sampleOverhead with amount := ⟨8000, 0⟩ }

/-- Concrete instantiation of the C1 theorem at one-row stores. -/
theorem C1_witness :
    ((Projects.save dbP (some 1) movedProject none none).1.projectVersions =
        Projects.mkVersion 1 sampleProject none none :: dbP.projectVersions ∧
      (Projects.save dbP (some 1) movedProject none none).2.version_number = 2 ∧
      lookupRow (Projects.save dbP (some 1) movedProject none none).1.projects 1 =
        some (Projects.save dbP (some 1) movedProject none none).2) ∧
    ((ProjectCosts.save dbC (some 1) bumpedCost none none).1.projectCostVersions =
        ProjectCosts.mkVersion 1 sampleCost none none :: dbC.projectCostVersions ∧
      (ProjectCosts.save dbC (some 1) bumpedCost none none).2.version_number = 2 ∧
      lookupRow (ProjectCosts.save dbC (some 1) bumpedCost none none).1.projectCosts 1 =
        some (ProjectCosts.save dbC (some 1) bumpedCost none none).2) ∧
    ((ProjectOverheads.save dbO (some 1) bumpedOverhead none none).1.projectOverheadVersions =
        ProjectOverheads.mkVersion 1 sampleOverhead none none ::
          dbO.projectOverheadVersions ∧
      (ProjectOverheads.save dbO (some 1) bumpedOverhead none none).2.version_number = 2 ∧
      lookupRow
          (ProjectOverheads.save dbO (some 1) bumpedOverhead none none).1.projectOverheads 1 =
        some (ProjectOverheads.save dbO (some 1) bumpedOverhead none none).2) :=
  ⟨C1_update_snapshots_and_bumps.1 dbP 1 sampleProject movedProject none none
      (by decide) (by decide),
   C1_update_snapshots_and_bumps.2.1 dbC 1 sampleCost bumpedCost none none
      (by decide) (by decide),
   C1_update_snapshots_and_bumps.2.2 dbO 1 sampleOverhead bumpedOverhead none none
      (by decide) (by decide)⟩

/-- The contiguity property claimed for every entity of a store state: the
history versions of an entity at version v are exactly v - 1 records
carrying 1, ..., v - 1 with no duplicates (so together with the current
version they form 1, ..., v). -/
def VersionContiguity (db : DB) : Prop :=
  (∀ k e, lookupRow db.projects k = some e →
      (projHistVers db k).length = e.version_number - 1 ∧
      (∀ i, i ∈ projHistVers db k ↔ 1 ≤ i ∧ i < e.version_number) ∧
      (projHistVers db k).Nodup) ∧
  (∀ k e, lookupRow db.projectCosts k = some e →
      (costHistVers db k).length = e.version_number - 1 ∧
      (∀ i, i ∈ costHistVers db k ↔ 1 ≤ i ∧ i < e.version_number) ∧
      (costHistVers db k).Nodup) ∧
  (∀ k e, lookupRow db.projectOverheads k = some e →
      (overheadHistVers db k).length = e.version_number - 1 ∧
      (∀ i, i ∈ overheadHistVers db k ↔ 1 ≤ i ∧ i < e.version_number) ∧
      (overheadHistVers db k).Nodup)

/-- A store created through the PDF-import path with an external version id
of 3: the project lands at version 3 with no history. -/
def dbExtVersion : DB := createProjectExtOp DB.empty sampleProject 3 none none

/-- Claim C2, counterexample: the contiguity invariant fails on a reachable
state, because the PDF-import create path stores the external service's
version id without any history records. -/
theorem C2_counterexample :
    ¬ ∀ db : DB, Reachable true db → VersionContiguity db := by
  intro hAll
  have hreach : Reachable true dbExtVersion :=
    Reachable.step (Reachable.init true)
      (Step.createProjectExt DB.empty sampleProject 3 none none)
  have h := (hAll dbExtVersion hreach).1 1
    { sampleProject with version_number := 3 } (by decide)
  exact absurd h.1 (by decide)

/-- Claim C2 (amended): in every store state reachable through the modelled
call paths in which every create uses the default version 1 (the
external-version PDF create excluded), each entity at version v has exactly
v - 1 history records, carrying the versions 1, ..., v - 1 with no gaps and
no duplicates — so together with the current version they form 1, ..., v. -/
theorem C2_version_contiguity (db : DB) (h : Reachable false db) :
    VersionContiguity db := by
  obtain ⟨invP, invC, invO⟩ := reachable_inv h
  refine ⟨?_, ?_, ?_⟩
  · intro k e hk
    obtain ⟨-, hv, hchain⟩ := invP.1 k e hk
    unfold projHistVers
    rw [hchain]
    refine ⟨countdown_length _, fun i => ?_, countdown_nodup _⟩
    rw [countdown_mem]
    omega
  · intro k e hk
    obtain ⟨-, hv, hchain⟩ := invC.1 k e hk
    unfold costHistVers
    rw [hchain]
    refine ⟨countdown_length _, fun i => ?_, countdown_nodup _⟩
    rw [countdown_mem]
    omega
  · intro k e hk
    obtain ⟨-, hv, hchain⟩ := invO.1 k e hk
    unfold overheadHistVers
    rw [hchain]
    refine ⟨countdown_length _, fun i => ?_, countdown_nodup _⟩
    rw [countdown_mem]
    omega

/-- Concrete instantiation of the C2 theorem at a reachable one-project
store. -/
theorem C2_witness : VersionContiguity dbP :=
  C2_version_contiguity dbP
    (Reachable.step (Reachable.init false)
      (Step.createProject false DB.empty sampleProject none none))

/-- Claim C3 (amended): after any save of a ProjectCost whose quantity and
rate_per_unit are both nonzero (Python-truthy), the saved entity's
line_total is exactly quantity times rate_per_unit under decimal
arithmetic, whatever line_total the caller supplied. -/
theorem C3_line_total_derived (db : DB) (pk : Option Nat) (self : ProjectCosts)
    (cb cr : Option String)
    (hq : self.quantity.unscaled ≠ 0) (hr : self.rate_per_unit.unscaled ≠ 0) :
    (ProjectCosts.save db pk self cb cr).2.line_total =
      Dec.mul self.quantity self.rate_per_unit := by
  have hd := ProjectCosts.deriveLineTotal_of_truthy self hq hr
  rcases pk with _ | k
  · rw [costs_save_insert, hd]
  · cases hlook : lookupRow db.projectCosts k with
    | none => rw [costs_save_missing db k self cb cr hlook, hd]
    | some old =>
        rw [costs_save_found db k self old cb cr hlook]
        by_cases hch :
            ProjectCosts.trackedChanged old (ProjectCosts.deriveLineTotal self) = true
        · rw [if_pos hch]
          show ({ ProjectCosts.deriveLineTotal self with
              version_number := old.version_number + 1 }).line_total = _
          rw [hd]
        · rw [if_neg hch]
          show (ProjectCosts.deriveLineTotal self).line_total = _
          rw [hd]

/-- A cost row with zero quantity but a nonzero caller-supplied
line_total. -/
def zeroQtyCost : ProjectCosts :=
  { sampleCost with quantity := ⟨0, 0⟩, line_total := ⟨50, 0⟩ }

/-- Claim C3, counterexample: with quantity 0 the truthiness guard skips the
recomputation, so the caller-supplied line_total 50 is stored although
quantity times rate_per_unit is 0. -/
theorem C3_counterexample :
    (ProjectCosts.save DB.empty none zeroQtyCost none none).2.line_total =
      (⟨50, 0⟩ : Dec) ∧
    Dec.valEq (ProjectCosts.save DB.empty none zeroQtyCost none none).2.line_total
      (Dec.mul zeroQtyCost.quantity zeroQtyCost.rate_per_unit) = false := by
  decide

/-- Concrete instantiation of the C3 theorem: a caller-supplied bogus
line_total of 999 is overwritten by 10 times 5. -/
theorem C3_witness :
    (ProjectCosts.save DB.empty none { sampleCost with line_total := ⟨999, 0⟩ }
        none none).2.line_total =
      Dec.mul sampleCost.quantity sampleCost.rate_per_unit :=
  C3_line_total_derived DB.empty none { sampleCost with line_total := ⟨999, 0⟩ }
    none none (by decide) (by decide)

/-- Claim C4: a save over an existing row in which no tracked field differs
(the instance carrying the stored version) writes no history row and leaves
the stored version_number unchanged, although the row itself is written —
for all three entity kinds. -/
theorem C4_noop_update_stable :
    (∀ (db : DB) (k : Nat) (old self : Projects) (cb cr : Option String),
        lookupRow db.projects k = some old →
        Projects.trackedChanged old self = false →
        self.version_number = old.version_number →
        (Projects.save db (some k) self cb cr).1.projectVersions =
          db.projectVersions ∧
        (Projects.save db (some k) self cb cr).2.version_number =
          old.version_number ∧
        lookupRow (Projects.save db (some k) self cb cr).1.projects k =
          some (Projects.save db (some k) self cb cr).2) ∧
    (∀ (db : DB) (k : Nat) (old self : ProjectCosts) (cb cr : Option String),
        lookupRow db.projectCosts k = some old →
        ProjectCosts.trackedChanged old self = false →
        self.version_number = old.version_number →
        (ProjectCosts.save db (some k) self cb cr).1.projectCostVersions =
          db.projectCostVersions ∧
        (ProjectCosts.save db (some k) self cb cr).2.version_number =
          old.version_number ∧
        lookupRow (ProjectCosts.save db (some k) self cb cr).1.projectCosts k =
          some (ProjectCosts.save db (some k) self cb cr).2) ∧
    (∀ (db : DB) (k : Nat) (old self : ProjectOverheads) (cb cr : Option String),
        lookupRow db.projectOverheads k = some old →
        ProjectOverheads.trackedChanged old self = false →
        self.version_number = old.version_number →
        (ProjectOverheads.save db (some k) self cb cr).1.projectOverheadVersions =
          db.projectOverheadVersions ∧
        (ProjectOverheads.save db (some k) self cb cr).2.version_number =
          old.version_number ∧
        lookupRow (ProjectOverheads.save db (some k) self cb cr).1.projectOverheads k =
          some (ProjectOverheads.save db (some k) self cb cr).2) := by
  refine ⟨?_, ?_, ?_⟩
  · intro db k old self cb cr hlook htc hv
    rw [projects_save_found db k self old cb cr hlook, if_neg (by simp [htc])]
    exact ⟨rfl, hv, lookupRow_setRow_self _ _ _⟩
  · intro db k old self cb cr hlook htc hv
    rw [costs_save_found db k self old cb cr hlook,
      ProjectCosts.trackedChanged_derive, if_neg (by simp [htc])]
    refine ⟨rfl, ?_, lookupRow_setRow_self _ _ _⟩
    rw [ProjectCosts.deriveLineTotal_version]
    exact hv
  · intro db k old self cb cr hlook htc hv
    rw [overheads_save_found db k self old cb cr hlook, if_neg (by simp [htc])]
    exact ⟨rfl, hv, lookupRow_setRow_self _ _ _⟩

/-- Concrete instantiation of the C4 theorem: identical re-saves of the
stored rows write no history and keep version 1. -/
theorem C4_witness :
    ((Projects.save dbP (some 1) sampleProject none none).1.projectVersions =
        dbP.projectVersions ∧
      (Projects.save dbP (some 1) sampleProject none none).2.version_number = 1 ∧
      lookupRow (Projects.save dbP (some 1) sampleProject none none).1.projects 1 =
        some (Projects.save dbP (some 1) sampleProject none none).2) ∧
    ((ProjectCosts.save dbC (some 1) sampleCost none none).1.projectCostVersions =
        dbC.projectCostVersions ∧
      (ProjectCosts.save dbC (some 1) sampleCost none none).2.version_number = 1 ∧
      lookupRow (ProjectCosts.save dbC (some 1) sampleCost none none).1.projectCosts 1 =
        some (ProjectCosts.save dbC (some 1) sampleCost none none).2) ∧
    ((ProjectOverheads.save dbO (some 1) sampleOverhead none none).1.projectOverheadVersions =
        dbO.projectOverheadVersions ∧
      (ProjectOverheads.save dbO (some 1) sampleOverhead none none).2.version_number = 1 ∧
      lookupRow
          (ProjectOverheads.save dbO (some 1) sampleOverhead none none).1.projectOverheads 1 =
        some (ProjectOverheads.save dbO (some 1) sampleOverhead none none).2) :=
  ⟨C4_noop_update_stable.1 dbP 1 sampleProject sampleProject none none
      (by decide) (by decide) (by decide),
   C4_noop_update_stable.2.1 dbC 1 sampleCost sampleCost none none
      (by decide) (by decide) (by decide),
   C4_noop_update_stable.2.2 dbO 1 sampleOverhead sampleOverhead none none
      (by decide) (by decide) (by decide)⟩

/-- Claim C5: a ProjectCosts save over an existing row whose tracked fields
(quantity, rate_per_unit, supplier_brand, category_total) all match the
stored row applies the submitted non-tracked fields (category_code,
category_name, item_description, unit) to the current row, yet writes no
history and keeps the version_number. -/
theorem C5_untracked_update_no_version (db : DB) (k : Nat)
    (old self : ProjectCosts) (cb cr : Option String)
    (hlook : lookupRow db.projectCosts k = some old)
    (htc : ProjectCosts.trackedChanged old self = false)
    (hv : self.version_number = old.version_number) :
    (ProjectCosts.save db (some k) self cb cr).1.projectCostVersions =
      db.projectCostVersions ∧
    (ProjectCosts.save db (some k) self cb cr).2.version_number =
      old.version_number ∧
    lookupRow (ProjectCosts.save db (some k) self cb cr).1.projectCosts k =
      some (ProjectCosts.save db (some k) self cb cr).2 ∧
    (ProjectCosts.save db (some k) self cb cr).2.category_code =
      self.category_code ∧
    (ProjectCosts.save db (some k) self cb cr).2.category_name =
      self.category_name ∧
    (ProjectCosts.save db (some k) self cb cr).2.item_description =
      self.item_description ∧
    (ProjectCosts.save db (some k) self cb cr).2.unit = self.unit := by
  rw [costs_save_found db k self old cb cr hlook,
    ProjectCosts.trackedChanged_derive, if_neg (by simp [htc])]
  obtain ⟨h1, h2, h3, h4⟩ := ProjectCosts.deriveLineTotal_untracked self
  refine ⟨rfl, ?_, lookupRow_setRow_self _ _ _, h1, h2, h3, h4⟩
  rw [ProjectCosts.deriveLineTotal_version]
  exact hv

/-- Cost update changing only non-tracked fields. -/
def recodedCost : ProjectCosts :=
  { sampleCost with
    category_code := "B", category_name := "Steel",
    item_description := "Rebar", unit := some "kg" }

/-- Concrete instantiation of the C5 theorem: re-labelling a cost row
changes the row but neither history nor version. -/
theorem C5_witness :
    (ProjectCosts.save dbC (some 1) recodedCost none none).1.projectCostVersions =
      dbC.projectCostVersions ∧
    (ProjectCosts.save dbC (some 1) recodedCost none none).2.version_number = 1 ∧
    lookupRow (ProjectCosts.save dbC (some 1) recodedCost none none).1.projectCosts 1 =
      some (ProjectCosts.save dbC (some 1) recodedCost none none).2 ∧
    (ProjectCosts.save dbC (some 1) recodedCost none none).2.category_code = "B" ∧
    (ProjectCosts.save dbC (some 1) recodedCost none none).2.category_name = "Steel" ∧
    (ProjectCosts.save dbC (some 1) recodedCost none none).2.item_description = "Rebar" ∧
    (ProjectCosts.save dbC (some 1) recodedCost none none).2.unit = some "kg" :=
  C5_untracked_update_no_version dbC 1 sampleCost recodedCost none none
    (by decide) (by decide) (by decide)

/-- Claim C6 (amended): every create path inserts the new row without any
history record; the default create paths insert at version_number 1, but
the PDF-import create path stores the external upload-doc version id
instead when one was returned. -/
theorem C6_create_inserts_no_history :
    (∀ (db : DB) (d : Projects) (cb cr : Option String),
        (createProjectOp db d cb cr).projectVersions = db.projectVersions ∧
        lookupRow (createProjectOp db d cb cr).projects db.nextProjectPk =
          some { d with version_number := 1 }) ∧
    (∀ (db : DB) (d : Projects) (v : Nat) (cb cr : Option String),
        (createProjectExtOp db d v cb cr).projectVersions = db.projectVersions ∧
        lookupRow (createProjectExtOp db d v cb cr).projects db.nextProjectPk =
          some { d with version_number := v }) ∧
    (∀ (db : DB) (d : ProjectCosts) (cb cr : Option String),
        (createCostOp db d cb cr).projectCostVersions = db.projectCostVersions ∧
        lookupRow (createCostOp db d cb cr).projectCosts db.nextCostPk =
          some (ProjectCosts.deriveLineTotal { d with version_number := 1 }) ∧
        (ProjectCosts.deriveLineTotal { d with version_number := 1 }).version_number = 1) ∧
    (∀ (db : DB) (d : ProjectCosts) (v : Nat) (cb cr : Option String),
        (createCostExtOp db d v cb cr).projectCostVersions = db.projectCostVersions ∧
        lookupRow (createCostExtOp db d v cb cr).projectCosts db.nextCostPk =
          some (ProjectCosts.deriveLineTotal { d with version_number := v }) ∧
        (ProjectCosts.deriveLineTotal { d with version_number := v }).version_number = v) ∧
    (∀ (db : DB) (d : ProjectOverheads) (cb cr : Option String),
        (createOverheadOp db d cb cr).projectOverheadVersions =
          db.projectOverheadVersions ∧
        lookupRow (createOverheadOp db d cb cr).projectOverheads db.nextOverheadPk =
          some { d with version_number := 1 }) ∧
    (∀ (db : DB) (d : ProjectOverheads) (v : Nat) (cb cr : Option String),
        (createOverheadExtOp db d v cb cr).projectOverheadVersions =
          db.projectOverheadVersions ∧
        lookupRow (createOverheadExtOp db d v cb cr).projectOverheads db.nextOverheadPk =
          some { d with version_number := v }) := by
  refine ⟨?_, ?_, ?_, ?_, ?_, ?_⟩
  · exact fun db d cb cr => ⟨rfl, lookupRow_setRow_self _ _ _⟩
  · exact fun db d v cb cr => ⟨rfl, lookupRow_setRow_self _ _ _⟩
  · exact fun db d cb cr =>
      ⟨rfl, lookupRow_setRow_self _ _ _,
        (ProjectCosts.deriveLineTotal_version _).trans rfl⟩
  · exact fun db d v cb cr =>
      ⟨rfl, lookupRow_setRow_self _ _ _,
        (ProjectCosts.deriveLineTotal_version _).trans rfl⟩
  · exact fun db d cb cr => ⟨rfl, lookupRow_setRow_self _ _ _⟩
  · exact fun db d v cb cr => ⟨rfl, lookupRow_setRow_self _ _ _⟩

/-- Claim C6, counterexample: the PDF-import create path with an external
version id of 5 inserts the project at version 5, not 1. -/
theorem C6_counterexample :
    (lookupRow (createProjectExtOp DB.empty sampleProject 5 none none).projects 1).map
        Projects.version_number = some 5 ∧
    (lookupRow (createProjectExtOp DB.empty sampleProject 5 none none).projects 1).map
        Projects.version_number ≠ some 1 := by
  decide

/-- Overhead update changing only the basis field. -/
def basisOnlyChange : ProjectOverheads := { sampleOverhead with basis := some "Fixed" }

/-- Claim C7, counterexample: saving an overhead whose basis alone differs
from the stored row writes no history record and leaves version_number at
1, because basis is absent from the tracked-field list of
ProjectOverheads.save. -/
theorem C7_counterexample :
    basisOnlyChange.basis ≠ sampleOverhead.basis ∧
    (ProjectOverheads.save dbO (some 1) basisOnlyChange none none).1.projectOverheadVersions =
      dbO.projectOverheadVersions ∧
    (ProjectOverheads.save dbO (some 1) basisOnlyChange none none).2.version_number = 1 := by
  decide

/-- Claim C7 (amended): an overhead save over an existing row that agrees
with the stored row on overhead_type, description, percentage and amount —
the actual tracked fields of ProjectOverheads.save, which exclude basis —
writes no history record and keeps the version_number, whatever the basis
field carries; the submitted row (with its new basis) is still stored. -/
theorem C7_basis_not_tracked (db : DB) (k : Nat)
    (old self : ProjectOverheads) (cb cr : Option String)
    (hlook : lookupRow db.projectOverheads k = some old)
    (hot : old.overhead_type = self.overhead_type)
    (hdesc : old.description = self.description)
    (hpct : Dec.valEq old.percentage self.percentage = true)
    (hamt : Dec.valEq old.amount self.amount = true)
    (hv : self.version_number = old.version_number) :
    (ProjectOverheads.save db (some k) self cb cr).1.projectOverheadVersions =
      db.projectOverheadVersions ∧
    (ProjectOverheads.save db (some k) self cb cr).2 = self ∧
    (ProjectOverheads.save db (some k) self cb cr).2.version_number =
      old.version_number ∧
    lookupRow (ProjectOverheads.save db (some k) self cb cr).1.projectOverheads k =
      some self := by
  have htc : ProjectOverheads.trackedChanged old self = false := by
    simp [ProjectOverheads.trackedChanged, Dec.ne, hpct, hamt, hot, hdesc]
  rw [overheads_save_found db k self old cb cr hlook, if_neg (by simp [htc])]
  exact ⟨rfl, rfl, hv, lookupRow_setRow_self _ _ _⟩

/-- Concrete instantiation of the C7 theorem at the one-overhead store. -/
theorem C7_witness :
    (ProjectOverheads.save dbO (some 1) basisOnlyChange none none).1.projectOverheadVersions =
      dbO.projectOverheadVersions ∧
    (ProjectOverheads.save dbO (some 1) basisOnlyChange none none).2 = basisOnlyChange ∧
    (ProjectOverheads.save dbO (some 1) basisOnlyChange none none).2.version_number = 1 ∧
    lookupRow
        (ProjectOverheads.save dbO (some 1) basisOnlyChange none none).1.projectOverheads 1 =
      some basisOnlyChange :=
  C7_basis_not_tracked dbO 1 sampleOverhead basisOnlyChange none none
    (by decide) (by decide) (by decide) (by decide) (by decide) (by decide)

/-- Claim C8: tracked numeric fields are compared by decimal value, so a
save supplying value-equal but differently represented decimals (plus
unchanged non-numeric tracked fields) writes no history and keeps the
version_number — for all three entity kinds. -/
theorem C8_numeric_value_comparison :
    (∀ (db : DB) (k : Nat) (old self : Projects) (cb cr : Option String),
        lookupRow db.projects k = some old →
        old.name = self.name → old.location = self.location →
        old.start_date = self.start_date → old.end_date = self.end_date →
        Dec.valEq old.total_project_cost self.total_project_cost = true →
        self.version_number = old.version_number →
        (Projects.save db (some k) self cb cr).1.projectVersions =
          db.projectVersions ∧
        (Projects.save db (some k) self cb cr).2.version_number =
          old.version_number) ∧
    (∀ (db : DB) (k : Nat) (old self : ProjectCosts) (cb cr : Option String),
        lookupRow db.projectCosts k = some old →
        Dec.valEq old.quantity self.quantity = true →
        Dec.valEq old.rate_per_unit self.rate_per_unit = true →
        old.supplier_brand = self.supplier_brand →
        optDecNe old.category_total self.category_total = false →
        self.version_number = old.version_number →
        (ProjectCosts.save db (some k) self cb cr).1.projectCostVersions =
          db.projectCostVersions ∧
        (ProjectCosts.save db (some k) self cb cr).2.version_number =
          old.version_number) ∧
    (∀ (db : DB) (k : Nat) (old self : ProjectOverheads) (cb cr : Option String),
        lookupRow db.projectOverheads k = some old →
        Dec.valEq old.percentage self.percentage = true →
        Dec.valEq old.amount self.amount = true →
        old.overhead_type = self.overhead_type →
        old.description = self.description →
        self.version_number = old.version_number →
        (ProjectOverheads.save db (some k) self cb cr).1.projectOverheadVersions =
          db.projectOverheadVersions ∧
        (ProjectOverheads.save db (some k) self cb cr).2.version_number =
          old.version_number) := by
  refine ⟨?_, ?_, ?_⟩
  · intro db k old self cb cr hlook h1 h2 h3 h4 h5 hv
    have htc : Projects.trackedChanged old self = false := by
      simp [Projects.trackedChanged, Dec.ne, h1, h2, h3, h4, h5]
    rw [projects_save_found db k self old cb cr hlook, if_neg (by simp [htc])]
    exact ⟨rfl, hv⟩
  · intro db k old self cb cr hlook h1 h2 h3 h4 hv
    have htc : ProjectCosts.trackedChanged old self = false := by
      simp [ProjectCosts.trackedChanged, Dec.ne, h1, h2, h3, h4]
    rw [costs_save_found db k self old cb cr hlook,
      ProjectCosts.trackedChanged_derive, if_neg (by simp [htc])]
    refine ⟨rfl, ?_⟩
    rw [ProjectCosts.deriveLineTotal_version]
    exact hv
  · intro db k old self cb cr hlook h1 h2 h3 h4 hv
    have htc : ProjectOverheads.trackedChanged old self = false := by
      simp [ProjectOverheads.trackedChanged, Dec.ne, h1, h2, h3, h4]
    rw [overheads_save_found db k self old cb cr hlook, if_neg (by simp [htc])]
    exact ⟨rfl, hv⟩

/-- Project carrying 5000 where the store holds 5000.00. -/
def reformattedProject : Projects :=
  { sampleProject with total_project_cost := ⟨5000, 0⟩ }

/-- Cost carrying 10.00, 5.00 and 50.00 where the store holds 10, 5, 50. -/
def reformattedCost : ProjectCosts :=
  { sampleCost with
    quantity := ⟨1000, 2⟩, rate_per_unit := ⟨500, 2⟩,
    category_total := some ⟨5000, 2⟩ }

/-- Overhead carrying 5000.00 where the store holds 5000. -/
def reformattedOverhead : ProjectOverheads :=
  { sampleOverhead with amount := ⟨500000, 2⟩ }

/-- Concrete instantiation of the C8 theorem: re-saving each row with
value-equal but rescaled decimals bumps nothing. -/
theorem C8_witness :
    ((Projects.save dbP (some 1) reformattedProject none none).1.projectVersions =
        dbP.projectVersions ∧
      (Projects.save dbP (some 1) reformattedProject none none).2.version_number = 1) ∧
    ((ProjectCosts.save dbC (some 1) reformattedCost none none).1.projectCostVersions =
        dbC.projectCostVersions ∧
      (ProjectCosts.save dbC (some 1) reformattedCost none none).2.version_number = 1) ∧
    ((ProjectOverheads.save dbO (some 1) reformattedOverhead none none).1.projectOverheadVersions =
        dbO.projectOverheadVersions ∧
      (ProjectOverheads.save dbO (some 1) reformattedOverhead none none).2.version_number = 1) :=
  ⟨C8_numeric_value_comparison.1 dbP 1 sampleProject reformattedProject none none
      (by decide) (by decide) (by decide) (by decide) (by decide) (by decide) (by decide),
   C8_numeric_value_comparison.2.1 dbC 1 sampleCost reformattedCost none none
      (by decide) (by decide) (by decide) (by decide) (by decide) (by decide),
   C8_numeric_value_comparison.2.2 dbO 1 sampleOverhead reformattedOverhead none none
      (by decide) (by decide) (by decide) (by decide) (by decide) (by decide)⟩

/-- Claim C9: when a version-triggering save is made without a caller-set
change reason, the created history record's change_reason is the string
"Updated" — for all three entity kinds. -/
theorem C9_default_change_reason :
    (∀ (db : DB) (k : Nat) (old self : Projects) (cb : Option String),
        lookupRow db.projects k = some old →
        Projects.trackedChanged old self = true →
        ((Projects.save db (some k) self cb none).1.projectVersions.head?).map
          ProjectVersion.change_reason = some "Updated") ∧
    (∀ (db : DB) (k : Nat) (old self : ProjectCosts) (cb : Option String),
        lookupRow db.projectCosts k = some old →
        ProjectCosts.trackedChanged old self = true →
        ((ProjectCosts.save db (some k) self cb none).1.projectCostVersions.head?).map
          ProjectCostVersion.change_reason = some "Updated") ∧
    (∀ (db : DB) (k : Nat) (old self : ProjectOverheads) (cb : Option String),
        lookupRow db.projectOverheads k = some old →
        ProjectOverheads.trackedChanged old self = true →
        ((ProjectOverheads.save db (some k) self cb none).1.projectOverheadVersions.head?).map
          ProjectOverheadVersion.change_reason = some "Updated") := by
  refine ⟨?_, ?_, ?_⟩
  · intro db k old self cb hlook htc
    rw [projects_save_found db k self old cb none hlook, if_pos htc]
    rfl
  · intro db k old self cb hlook htc
    rw [costs_save_found db k self old cb none hlook,
      ProjectCosts.trackedChanged_derive, if_pos htc]
    rfl
  · intro db k old self cb hlook htc
    rw [overheads_save_found db k self old cb none hlook, if_pos htc]
    rfl

/-- Concrete instantiation of the C9 theorem: version-triggering updates
without a reason record "Updated". -/
theorem C9_witness :
    ((Projects.save dbP (some 1) movedProject none none).1.projectVersions.head?).map
        ProjectVersion.change_reason = some "Updated" ∧
    ((ProjectCosts.save dbC (some 1) bumpedCost none none).1.projectCostVersions.head?).map
        ProjectCostVersion.change_reason = some "Updated" ∧
    ((ProjectOverheads.save dbO (some 1) bumpedOverhead none none).1.projectOverheadVersions.head?).map
        ProjectOverheadVersion.change_reason = some "Updated" :=
  ⟨C9_default_change_reason.1 dbP 1 sampleProject movedProject none
      (by decide) (by decide),
   C9_default_change_reason.2.1 dbC 1 sampleCost bumpedCost none
      (by decide) (by decide),
   C9_default_change_reason.2.2 dbO 1 sampleOverhead bumpedOverhead none
      (by decide) (by decide)⟩

/-- Claim C10: a save whose pk matches no stored row raises nothing and acts
as an insert: no history record, no version increment by the mechanism, and
the instance is stored at that pk as carried (for ProjectCosts, after the
usual line_total recomputation that precedes the versioning block) — for
all three entity kinds. -/
theorem C10_stray_pk_save_inserts :
    (∀ (db : DB) (k : Nat) (self : Projects) (cb cr : Option String),
        lookupRow db.projects k = none →
        (Projects.save db (some k) self cb cr).1.projectVersions =
          db.projectVersions ∧
        (Projects.save db (some k) self cb cr).2 = self ∧
        lookupRow (Projects.save db (some k) self cb cr).1.projects k =
          some self) ∧
    (∀ (db : DB) (k : Nat) (self : ProjectCosts) (cb cr : Option String),
        lookupRow db.projectCosts k = none →
        (ProjectCosts.save db (some k) self cb cr).1.projectCostVersions =
          db.projectCostVersions ∧
        (ProjectCosts.save db (some k) self cb cr).2 =
          ProjectCosts.deriveLineTotal self ∧
        (ProjectCosts.save db (some k) self cb cr).2.version_number =
          self.version_number ∧
        lookupRow (ProjectCosts.save db (some k) self cb cr).1.projectCosts k =
          some (ProjectCosts.deriveLineTotal self)) ∧
    (∀ (db : DB) (k : Nat) (self : ProjectOverheads) (cb cr : Option String),
        lookupRow db.projectOverheads k = none →
        (ProjectOverheads.save db (some k) self cb cr).1.projectOverheadVersions =
          db.projectOverheadVersions ∧
        (ProjectOverheads.save db (some k) self cb cr).2 = self ∧
        lookupRow (ProjectOverheads.save db (some k) self cb cr).1.projectOverheads k =
          some self) := by
  refine ⟨?_, ?_, ?_⟩
  · intro db k self cb cr hlook
    rw [projects_save_missing db k self cb cr hlook]
    exact ⟨rfl, rfl, lookupRow_setRow_self _ _ _⟩
  · intro db k self cb cr hlook
    rw [costs_save_missing db k self cb cr hlook]
    exact ⟨rfl, rfl, ProjectCosts.deriveLineTotal_version _,
      lookupRow_setRow_self _ _ _⟩
  · intro db k self cb cr hlook
    rw [overheads_save_missing db k self cb cr hlook]
    exact ⟨rfl, rfl, lookupRow_setRow_self _ _ _⟩

/-- Project instance carrying a stray pk and version 7. -/
def strayProject : Projects := { sampleProject with version_number := 7 }

/-- Concrete instantiation of the C10 theorem: saving instances at the
unoccupied pk 7 of the empty store. -/
theorem C10_witness :
    ((Projects.save DB.empty (some 7) strayProject none none).1.projectVersions =
        DB.empty.projectVersions ∧
      (Projects.save DB.empty (some 7) strayProject none none).2 = strayProject ∧
      lookupRow (Projects.save DB.empty (some 7) strayProject none none).1.projects 7 =
        some strayProject) ∧
    ((ProjectCosts.save DB.empty (some 7) sampleCost none none).1.projectCostVersions =
        DB.empty.projectCostVersions ∧
      (ProjectCosts.save DB.empty (some 7) sampleCost none none).2 =
        ProjectCosts.deriveLineTotal sampleCost ∧
      (ProjectCosts.save DB.empty (some 7) sampleCost none none).2.version_number = 1 ∧
      lookupRow (ProjectCosts.save DB.empty (some 7) sampleCost none none).1.projectCosts 7 =
        some (ProjectCosts.deriveLineTotal sampleCost)) ∧
    ((ProjectOverheads.save DB.empty (some 7) sampleOverhead none none).1.projectOverheadVersions =
        DB.empty.projectOverheadVersions ∧
      (ProjectOverheads.save DB.empty (some 7) sampleOverhead none none).2 = sampleOverhead ∧
      lookupRow
          (ProjectOverheads.save DB.empty (some 7) sampleOverhead none none).1.projectOverheads 7 =
        some sampleOverhead) :=
  ⟨C10_stray_pk_save_inserts.1 DB.empty 7 strayProject none none (by decide),
   C10_stray_pk_save_inserts.2.1 DB.empty 7 sampleCost none none (by decide),
   C10_stray_pk_save_inserts.2.2 DB.empty 7 sampleOverhead none none (by decide)⟩
